import Mathlib

/-!
Shallow embedding of the organ allocation decision engine of
src/project/src/services/matching.service.ts (class MatchingService).

Numbers are modelled by rationals, timestamps by rational epoch
milliseconds, and the wall clock by an explicit parameter now : rational
epoch milliseconds.  JavaScript Math.round coincides with Mathlib round
on the values that occur here, and JavaScript Set objects are modelled by
deduplicated lists (only membership and size are ever used).
-/

namespace OrganMatching

/-- BloodType of src/project/src/types/index.ts. -/
inductive BloodType
  | Apos | Aneg | Bpos | Bneg | ABpos | ABneg | Opos | Oneg
deriving DecidableEq, Repr

/-- OrganType of src/project/src/types/index.ts. -/
inductive OrganType
  | kidney | liver | heart
deriving DecidableEq, Repr

/-- Gender of src/project/src/types/index.ts. -/
inductive Gender
  | male | female
deriving DecidableEq, Repr

/-- UNOSStatus of src/project/src/types/index.ts. -/
inductive UNOSStatus
  | s1A | s1B | s2 | s3 | s4 | s7
deriving DecidableEq, Repr

/-- Recipient status field. -/
inductive RecipientStatus
  | active | transplanted | inactive
deriving DecidableEq, Repr

/-- risk_level values. -/
inductive RiskLevel
  | low | medium | high
deriving DecidableEq, Repr

/-- urgency_level values. -/
inductive UrgencyLevel
  | routine | urgent | critical
deriving DecidableEq, Repr

/-- The six HLA locus keys occurring in HlaTyping
    (HLA-A, HLA-B, HLA-C, HLA-DR, HLA-DQ, HLA-DP). -/
inductive Locus
  | A | B | C | DR | DQ | DP
deriving DecidableEq, Repr

/-- HlaTyping of src/project/src/types/index.ts: locus name to allele
    strings; the index signature may additionally carry an
    unacceptable_antigens entry, read by hasUnacceptableAntigenConflict. -/
structure HlaTyping where
  hlaA : List String
  hlaB : List String
  hlaC : List String
  hlaDR : List String
  hlaDQ : List String
  hlaDP : List String
  unacceptable_antigens : Option (List String)
deriving DecidableEq, Repr

/-- Lookup of the allele list stored under a locus key. -/
def HlaTyping.locus (h : HlaTyping) : Locus → List String
  | .A => h.hlaA
  | .B => h.hlaB
  | .C => h.hlaC
  | .DR => h.hlaDR
  | .DQ => h.hlaDQ
  | .DP => h.hlaDP

/-- Donor of src/project/src/types/index.ts, restricted to the fields the
    matching engine reads.  Timestamps are rational epoch milliseconds;
    a none stands for a missing or falsy field. -/
structure Donor where
  id : String
  age : ℚ
  gender : Gender
  blood_type : BloodType
  hla_typing : HlaTyping
  weight_kg : Option ℚ
  medical_history : String
  organs_available : List OrganType
  cause_of_death : String
  cold_ischemia_time_hours : Option ℚ
  ischemia_start_at : Option ℚ
  updated_at : Option ℚ
  created_at : Option ℚ
deriving DecidableEq, Repr

/-- Recipient of src/project/src/types/index.ts, restricted to the fields
    the matching engine reads. -/
structure Recipient where
  id : String
  age : ℚ
  gender : Gender
  blood_type : BloodType
  hla_typing : HlaTyping
  weight_kg : Option ℚ
  medical_history : String
  organ_needed : OrganType
  urgency_score : ℚ
  meld_score : Option ℚ
  unos_status : Option UNOSStatus
  status : RecipientStatus
  unacceptable_antigens : Option (List String)
deriving DecidableEq, Repr

/-- compatibility_factors of MatchResult. -/
structure CompatibilityFactors where
  blood_compatibility : Bool
  hla_compatibility : ℚ
  age_compatibility : Bool
  size_compatibility : Bool
  gender_compatibility : Bool
  urgency_bonus : ℚ
deriving DecidableEq, Repr

/-- MatchResult of src/project/src/types/index.ts. -/
structure MatchResult where
  recipient : Recipient
  match_score : ℚ
  risk_level : RiskLevel
  risk_percentage : ℚ
  urgency_level : UrgencyLevel
  compatibility_factors : CompatibilityFactors
  viability_window_hours : ℚ
  viability_window : ℚ
  cold_ischemia_time : ℚ
deriving DecidableEq, Repr

/-- Eligibility check outcome: a boolean and an optional reason string. -/
structure EligibilityResult where
  eligible : Bool
  reason : Option String
deriving DecidableEq, Repr

/- ===== string helpers (JavaScript String.prototype semantics) ===== -/

/-- List form of JavaScript String.prototype.includes. -/
def listIncludes (needle : List Char) : List Char → Bool
  | [] => needle.isEmpty
  | c :: t => needle.isPrefixOf (c :: t) || listIncludes needle t

/-- JavaScript hay.includes(needle). -/
def strIncludes (hay needle : String) : Bool :=
  listIncludes needle.data hay.data

/-- JavaScript s.replace(new RegExp leading pre, rep): replace a leading
    occurrence of pre by rep, if present. -/
def replaceLeading (pre rep s : String) : String :=
  if pre.data.isPrefixOf s.data then String.mk (rep.data ++ s.data.drop pre.data.length)
  else s

/-- JavaScript toLowerCase, character by character. -/
def strToLower (s : String) : String :=
  String.mk (s.data.map Char.toLower)

/-- JavaScript toUpperCase, character by character. -/
def strToUpper (s : String) : String :=
  String.mk (s.data.map Char.toUpper)

/-- JavaScript trim: strip leading and trailing whitespace. -/
def strTrim (s : String) : String :=
  String.mk
    (((s.data.dropWhile Char.isWhitespace).reverse.dropWhile Char.isWhitespace).reverse)

/- ===== HLA allele normalization (normalizeAllele and friends) ===== -/

/-- Numeric value of a two-digit capture, as parseInt would read it. -/
def twoDigitVal (c d : Char) : Nat :=
  10 * (c.toNat - 48) + (d.toNat - 48)

/-- First match of the regular expression star-optional-two-digits used by
    normalizeAllele: scanning left to right, an optional star followed by
    two ASCII digits; returns the numeric value of the captured digits. -/
def findTwoDigitGroup : List Char → Option Nat
  | [] => none
  | [_] => none
  | c1 :: c2 :: rest =>
    if c1 = '*' then
      match rest with
      | c3 :: _ =>
        if c2.isDigit && c3.isDigit then some (twoDigitVal c2 c3)
        else findTwoDigitGroup (c2 :: rest)
      | [] => none
    else if c1.isDigit && c2.isDigit then some (twoDigitVal c1 c2)
    else findTwoDigitGroup (c2 :: rest)

/-- Antigen-family tag prepended to the extracted numeric group. -/
def locusTag : Locus → String
  | .A => "A"
  | .B => "B"
  | .C => "C"
  | .DR => "DR"
  | .DQ => "DQ"
  | .DP => "DP"

/-- normalizeAllele: reduce an allele string to an antigen-level label,
    extracting the first two-digit group (A*02:01 to A2, DRB1*15:01 to
    DR15); fallback strips the HLA- prefix (and rewrites a DRB1* prefix
    to DR at the DR locus). -/
def normalizeAllele (allele : String) (locus : Locus) : String :=
  if allele = "" then ""
  else
    let a := strTrim (strToUpper allele)
    match findTwoDigitGroup a.data with
    | some n => locusTag locus ++ toString n
    | none =>
      match locus with
      | .DR => replaceLeading "DRB1*" "DR" (replaceLeading "HLA-" "" a)
      | _ => replaceLeading "HLA-" "" a

/-- alleleListToAntigens: drop blank entries, normalize, and collect into
    a set (modelled as a deduplicated list). -/
def alleleListToAntigens (alleles : List String) (locus : Locus) : List String :=
  ((alleles.filter (fun v => !(strTrim v).data.isEmpty)).map
    (fun a => normalizeAllele a locus)).dedup

/-- computeLocusMatchRatio: ratio of donor antigens present on the
    recipient side, over min 2 (donor antigen count); negative one marks a
    locus with no data on one of the two sides. -/
def computeLocusMatchRatio (donorAlleles recipientAlleles : List String)
    (locus : Locus) : ℚ :=
  let donorAntigens := alleleListToAntigens donorAlleles locus
  let recipientAntigens := alleleListToAntigens recipientAlleles locus
  if donorAntigens.length = 0 ∨ recipientAntigens.length = 0 then -1
  else
    let matchCount : Nat :=
      (donorAntigens.filter (fun a => recipientAntigens.contains a)).length
    let denom : Nat := max 1 (min 2 donorAntigens.length)
    min 1 ((matchCount : ℚ) / (denom : ℚ))

/-- HLA_LOCUS_WEIGHTS: organ-specific per-locus weights, in the insertion
    order of the source object literals. -/
def HLA_LOCUS_WEIGHTS : OrganType → List (Locus × ℚ)
  | .kidney => [(.DR, 0.5), (.B, 0.3), (.A, 0.2)]
  | .heart => [(.DR, 0.4), (.B, 0.35), (.A, 0.25)]
  | .liver => [(.DR, 1.0)]

/-- One locus step of calculateHLACompatibility: accumulate weighted
    ratio and used weight when the locus ratio is not the unavailability
    marker. -/
def hlaFoldStep (donorHLA recipientHLA : HlaTyping) (acc : ℚ × ℚ)
    (lw : Locus × ℚ) : ℚ × ℚ :=
  let locusRatio :=
    computeLocusMatchRatio (donorHLA.locus lw.1) (recipientHLA.locus lw.1) lw.1
  if 0 ≤ locusRatio then (acc.1 + locusRatio * lw.2, acc.2 + lw.2) else acc

/-- calculateHLACompatibility: weighted average of the usable per-locus
    match ratios, neutral 1 when no locus has data on both sides. -/
def calculateHLACompatibility (donorHLA recipientHLA : HlaTyping)
    (organ : OrganType) : ℚ :=
  let sums := (HLA_LOCUS_WEIGHTS organ).foldl (hlaFoldStep donorHLA recipientHLA) (0, 0)
  if sums.2 = 0 then 1
  else min 1 (max 0 (sums.1 / sums.2))

/- ===== fixed clinical policy tables ===== -/

/-- BLOOD_COMPATIBILITY: recipient types each donor type may serve. -/
def BLOOD_COMPATIBILITY : BloodType → List BloodType
  | .Oneg => [.Oneg, .Opos, .Aneg, .Apos, .Bneg, .Bpos, .ABneg, .ABpos]
  | .Opos => [.Opos, .Apos, .Bpos, .ABpos]
  | .Aneg => [.Aneg, .Apos, .ABneg, .ABpos]
  | .Apos => [.Apos, .ABpos]
  | .Bneg => [.Bneg, .Bpos, .ABneg, .ABpos]
  | .Bpos => [.Bpos, .ABpos]
  | .ABneg => [.ABneg, .ABpos]
  | .ABpos => [.ABpos]

/-- ORGAN_VIABILITY_HOURS: static per-organ cold ischemia defaults. -/
def ORGAN_VIABILITY_HOURS : OrganType → ℚ
  | .kidney => 24
  | .heart => 6
  | .liver => 12

/-- HLA_IMPORTANCE: loci considered clinically important per organ. -/
def HLA_IMPORTANCE : OrganType → List Locus
  | .kidney => [.A, .B, .DR]
  | .liver => [.DR]
  | .heart => [.A, .B, .DR]

/-- AGE_RULES donor side: optional min and max donor age per organ. -/
def donorAgeMin : OrganType → Option ℚ
  | .kidney => some 18
  | .heart => none
  | .liver => some 18

/-- AGE_RULES donor side: maximum donor age per organ. -/
def donorAgeMax : OrganType → Option ℚ
  | .kidney => some 70
  | .heart => some 65
  | .liver => some 70

/-- AGE_RULES recipient side: maximum recipient age per organ. -/
def recipientAgeMax : OrganType → ℚ
  | .kidney => 75
  | .heart => 70
  | .liver => 75

/-- AGE_RULES maxDiff: maximal donor/recipient age difference per organ. -/
def ageMaxDiff : OrganType → ℚ
  | .kidney => 20
  | .heart => 10
  | .liver => 25

/-- MEDICAL_EXCLUSIONS.donor.general. -/
def donorGeneralExclusions : List String :=
  ["infection", "malignancy", "psychiatric illness", "alcohol abuse", "drug abuse"]

/-- MEDICAL_EXCLUSIONS.donor organ-specific lists. -/
def donorOrganExclusions : OrganType → List String
  | .kidney =>
      ["kidney disease", "low gfr", "polycystic kidney disease",
       "diabetes with organ damage", "hypertension", "proteinuria", "hematuria",
       "kidney stone", "glomerulonephritis", "renal infection", "nephrotoxic",
       "ethylene glycol", "lithium", "diabetes"]
  | .heart =>
      ["coronary artery disease", "myocardial infarction", "myocardial infarction",
       "heart attack", "valvular disease", "cardiomyopathy",
       "congenital heart disease", "malignant arrhythmias",
       "pulmonary hypertension", "chest trauma", "heart trauma", "diabetes"]
  | .liver =>
      ["cirrhosis", "chronic hepatitis with fibrosis", "fatty liver >30%",
       "alcoholic liver disease", "biliary disease", "wilson’s disease",
       "hemochromatosis", "alpha-1 antitrypsin deficiency", "portal hypertension",
       "liver failure", "hepatotoxic", "paracetamol overdose", "hepatitis b",
       "hepatitis c"]

/-- MEDICAL_EXCLUSIONS.recipient.general. -/
def recipientGeneralExclusions : List String :=
  ["infection", "malignancy", "uncontrolled psychiatric illness",
   "active alcohol abuse", "drug abuse", "non-compliance with therapy"]

/-- MEDICAL_EXCLUSIONS.recipient organ-specific lists. -/
def recipientOrganExclusions : OrganType → List String
  | .kidney =>
      ["cancer", "cardiovascular disease", "peripheral vascular disease",
       "neurological impairment", "non-compliance with dialysis",
       "life expectancy <2 years"]
  | .heart =>
      ["irreversible pulmonary hypertension", "irreversible kidney disease",
       "irreversible liver disease", "peripheral vascular disease",
       "advanced neurological deficits"]
  | .liver =>
      ["uncontrolled sepsis", "extrahepatic malignancy", "heart disease",
       "lung disease", "hiv", "persistent alcohol/drug abuse",
       "irreversible brain injury"]

/-- The organ name as interpolated into reason and error strings. -/
def organName : OrganType → String
  | .kidney => "kidney"
  | .heart => "heart"
  | .liver => "liver"

/- ===== eligibility ===== -/

/-- The donor age check of isDonorEligible: below the organ minimum (when
    one is set) or above the organ maximum (when one is set). -/
def donorAgeFails (d : Donor) (organ : OrganType) : Bool :=
  (match donorAgeMin organ with
   | some m => decide (d.age < m)
   | none => false) ||
  (match donorAgeMax organ with
   | some m => decide (m < d.age)
   | none => false)

/-- isDonorEligible: age range gate, then first matching exclusion keyword
    over the combined lowercase medical_history and cause_of_death text. -/
def isDonorEligible (d : Donor) (organ : OrganType) : EligibilityResult :=
  let history := strToLower (d.medical_history ++ " " ++ d.cause_of_death)
  if donorAgeFails d organ then
    ⟨false, some ("Donor age (" ++ toString d.age ++
      ") is outside the acceptable range for " ++ organName organ ++ " donation.")⟩
  else
    match (donorGeneralExclusions ++ donorOrganExclusions organ).find?
        (fun keyword => strIncludes history keyword) with
    | some keyword =>
      ⟨false, some ("Medical history/cause of death includes exclusion criteria: \"" ++
        keyword ++ "\".")⟩
    | none => ⟨true, none⟩

/-- isRecipientEligible: age gate, then first matching exclusion keyword
    over the lowercase medical_history text. -/
def isRecipientEligible (r : Recipient) (organ : OrganType) : EligibilityResult :=
  let history := strToLower r.medical_history
  if recipientAgeMax organ < r.age then
    ⟨false, some ("Recipient age (" ++ toString r.age ++
      ") is outside the acceptable range for " ++ organName organ ++ " transplantation.")⟩
  else
    match (recipientGeneralExclusions ++ recipientOrganExclusions organ).find?
        (fun keyword => strIncludes history keyword) with
    | some keyword =>
      ⟨false, some ("Medical history includes exclusion criteria: \"" ++
        keyword ++ "\".")⟩
    | none => ⟨true, none⟩

/- ===== simple compatibility predicates ===== -/

/-- isBloodCompatible: table membership. -/
def isBloodCompatible (donorType recipientType : BloodType) : Bool :=
  (BLOOD_COMPATIBILITY donorType).contains recipientType

/-- JavaScript truthiness of an optional numeric weight field. -/
def weightTruthy : Option ℚ → Bool
  | none => false
  | some w => decide (w ≠ 0)

/-- isSizeCompatible: weight ratio inside the band, compatible when either
    weight is missing or falsy. -/
def isSizeCompatible (d : Donor) (r : Recipient) (minRatio maxRatio : ℚ) : Bool :=
  if weightTruthy d.weight_kg && weightTruthy r.weight_kg then
    let weightRatio := (d.weight_kg.getD 0) / (r.weight_kg.getD 0)
    decide (minRatio ≤ weightRatio ∧ weightRatio ≤ maxRatio)
  else true

/-- isGenderCompatible: same gender, plus female donor to male recipient
    for hearts. -/
def isGenderCompatible (donorGender recipientGender : Gender)
    (organ : OrganType) : Bool :=
  if donorGender = recipientGender then true
  else if organ = .heart ∧ donorGender = .female ∧ recipientGender = .male then true
  else false

/- ===== virtual crossmatch ===== -/

/-- Locus inferred from the leading characters of an unacceptable-antigen
    entry (already uppercased). -/
def inferLocus (upper : String) : Locus :=
  if "A".data.isPrefixOf upper.data then .A
  else if "B".data.isPrefixOf upper.data then .B
  else if "C".data.isPrefixOf upper.data then .C
  else if "DQ".data.isPrefixOf upper.data then .DQ
  else if "DP".data.isPrefixOf upper.data then .DP
  else if "DR".data.isPrefixOf upper.data then .DR
  else .A

/-- hasUnacceptableAntigenConflict: true when a donor antigen at an
    important locus appears in the recipient's declared
    unacceptable-antigen list (read from either optional field). -/
def hasUnacceptableAntigenConflict (donorHLA : HlaTyping) (r : Recipient)
    (organ : OrganType) : Bool :=
  let donorAntigens :=
    ((HLA_IMPORTANCE organ).foldl
      (fun acc locus => acc ++ alleleListToAntigens (donorHLA.locus locus) locus)
      []).dedup
  let unacceptable : List String :=
    match r.unacceptable_antigens with
    | some l => l
    | none =>
      match r.hla_typing.unacceptable_antigens with
      | some l => l
      | none => []
  let unacceptableAntigens :=
    ((unacceptable.filter (fun v => !(strTrim v).data.isEmpty)).map
      (fun a =>
        let upper := strTrim (strToUpper a)
        normalizeAllele upper (inferLocus upper))).dedup
  if unacceptableAntigens.length = 0 then false
  else donorAntigens.any (fun a => unacceptableAntigens.contains a)

/- ===== real-time cold ischemia helpers ===== -/

/-- getIschemiaStartAt: explicit start timestamp, else (when an explicit
    window is set) the update timestamp, else the creation timestamp. -/
def getIschemiaStartAt (d : Donor) : Option ℚ :=
  match d.ischemia_start_at with
  | some t => some t
  | none =>
    if d.cold_ischemia_time_hours.isSome then
      match d.updated_at with
      | some t => some t
      | none => d.created_at
    else d.created_at

/-- getElapsedHoursSince: fractional hours from a timestamp to now,
    clamped below at zero; zero when the timestamp is missing. -/
def getElapsedHoursSince (dateIso : Option ℚ) (now : ℚ) : ℚ :=
  match dateIso with
  | none => 0
  | some start => max 0 ((now - start) / (1000 * 60 * 60))

/-- getIschemiaLimitHours: explicit window if set, else the static
    per-organ default. -/
def getIschemiaLimitHours (d : Donor) (organ : OrganType) : ℚ :=
  d.cold_ischemia_time_hours.getD (ORGAN_VIABILITY_HOURS organ)

/-- getRemainingIschemiaHours: the static default when no explicit window
    is set, else the remaining hours rounded to one decimal. -/
def getRemainingIschemiaHours (d : Donor) (organ : OrganType) (now : ℚ) : ℚ :=
  let limit := getIschemiaLimitHours d organ
  match d.cold_ischemia_time_hours with
  | none => limit
  | some _ =>
    let startAt := getIschemiaStartAt d
    let elapsed := getElapsedHoursSince startAt now
    let remaining := max 0 (limit - elapsed)
    (round (remaining * 10) : ℚ) / 10

/-- isOrganViableNow: the ischemia window has not yet elapsed. -/
def isOrganViableNow (d : Donor) (organ : OrganType) (now : ℚ) : Bool :=
  decide (0 < getRemainingIschemiaHours d organ now)

/- ===== risk estimation ===== -/

/-- getSizeBounds: the same weight-ratio bands used during scoring. -/
def getSizeBounds : OrganType → ℚ × ℚ
  | .heart => (0.7, 1.3)
  | .liver => (0.6, 1.5)
  | .kidney => (0.5, 2.0)

/-- Comorbidity keyword buckets with their penalties. -/
def comorbidityBuckets : List (List String × ℚ) :=
  [(["diabetes"], 3),
   (["hypertension", "pulmonary hypertension"], 3),
   (["coronary artery disease", "cad", "myocardial infarction", "heart attack"], 4),
   (["infection", "sepsis"], 4),
   (["malignancy", "cancer"], 4),
   (["smoker", "smoking", "tobacco"], 2),
   (["alcohol abuse", "drug abuse"], 2)]

/-- One bucket step of the comorbidity scan: add the bucket penalty when
    any of its keywords occurs in the text. -/
def comorbidityStep (text : String) (acc : ℚ) (bucket : List String × ℚ) : ℚ :=
  if bucket.1.any (fun k => strIncludes text k) then acc + bucket.2 else acc

/-- getComorbidityPenalty: bucket scan over the combined lowercase
    history text, capped at 15. -/
def getComorbidityPenalty (donorHistory recipientHistory : String) : ℚ :=
  let text := strToLower (donorHistory ++ " " ++ recipientHistory)
  let penalty := comorbidityBuckets.foldl (comorbidityStep text) 0
  min penalty 15

/-- Risk step 1: age related risk. -/
def agePenaltyRisk (d : Donor) (r : Recipient) : ℚ :=
  (if 60 < d.age ∨ 65 < r.age then 15 else 0) +
  (if 25 < |d.age - r.age| then 10 else 0)

/-- Risk step 2: match-score related risk. -/
def scorePenaltyRisk (matchScore : ℚ) : ℚ :=
  if matchScore < 50 then 20
  else if matchScore < 70 then 10
  else 0

/-- Risk step 3: organ-specific urgency risks. -/
def organUrgencyRisk (r : Recipient) : OrganType → ℚ
  | .heart => if r.unos_status = some .s1A then 5 else 0
  | .liver =>
    match r.meld_score with
    | some m => if 25 < m then 10 else 0
    | none => 0
  | .kidney => 0

/-- Risk step 4: HLA mismatch penalty. -/
def hlaRiskPenalty (d : Donor) (r : Recipient) (organ : OrganType) : ℚ :=
  let hlaScore := calculateHLACompatibility d.hla_typing r.hla_typing organ
  let hlaMismatch := 1 - hlaScore
  let hlaPenaltyMax : ℚ :=
    match organ with
    | .kidney => 20
    | .heart => 15
    | .liver => 8
  hlaMismatch * hlaPenaltyMax

/-- Risk step 5: size mismatch penalty, skipped when a weight is missing
    or falsy. -/
def sizeMismatchRiskPenalty (d : Donor) (r : Recipient) (organ : OrganType) : ℚ :=
  let bounds := getSizeBounds organ
  if weightTruthy d.weight_kg && weightTruthy r.weight_kg then
    let ratio := (d.weight_kg.getD 0) / (r.weight_kg.getD 0)
    if ratio < bounds.1 ∨ bounds.2 < ratio then 10 else 0
  else 0

/-- Risk step 6: cold ischemia penalty, only when an explicit window is
    set. -/
def citRiskPenalty (d : Donor) (now : ℚ) : ℚ :=
  match d.cold_ischemia_time_hours with
  | none => 0
  | some windowHrs =>
    let startAt := getIschemiaStartAt d
    let elapsedHrs := getElapsedHoursSince startAt now
    if windowHrs < elapsedHrs then 20
    else min 8 (elapsedHrs / windowHrs * 8)

/-- The accumulated (uncapped) risk factor sum of calculateRisk. -/
def riskSum (d : Donor) (r : Recipient) (organ : OrganType)
    (matchScore now : ℚ) : ℚ :=
  agePenaltyRisk d r + scorePenaltyRisk matchScore + organUrgencyRisk r organ +
  hlaRiskPenalty d r organ + sizeMismatchRiskPenalty d r organ +
  citRiskPenalty d now +
  getComorbidityPenalty d.medical_history r.medical_history

/-- calculateRisk: cap the factor sum at 80 and map it to a level. -/
def calculateRisk (d : Donor) (r : Recipient) (organ : OrganType)
    (matchScore now : ℚ) : RiskLevel × ℚ :=
  let risk_percentage := min (riskSum d r organ matchScore now) 80
  let risk_level : RiskLevel :=
    if risk_percentage < 25 then .low
    else if risk_percentage < 50 then .medium
    else .high
  (risk_level, risk_percentage)

/-- determineUrgencyLevel: UNOS status, then MELD for liver, then the
    generic urgency score. -/
def determineUrgencyLevel (r : Recipient) (organ : OrganType) : UrgencyLevel :=
  if (organ = .heart ∨ organ = .liver) ∧ r.unos_status = some .s1A then .critical
  else if (organ = .heart ∨ organ = .liver) ∧ r.unos_status = some .s1B then .urgent
  else if organ = .liver ∧
      (match r.meld_score with | some m => decide (30 ≤ m) | none => false) = true then .critical
  else if organ = .liver ∧
      (match r.meld_score with | some m => decide (20 ≤ m) | none => false) = true then .urgent
  else if 8 ≤ r.urgency_score then .critical
  else if 5 ≤ r.urgency_score then .urgent
  else .routine

/- ===== compatibility scoring ===== -/

/-- The urgency bonus of calculateMatch (up to 15 points). -/
def urgencyBonus (r : Recipient) : ℚ :=
  min (r.urgency_score / 10 * 15) 15

/-- calculateHeartMatchFactors: organ-specific score and factor updates. -/
def calculateHeartMatchFactors (d : Donor) (r : Recipient)
    (factors : CompatibilityFactors) : ℚ × CompatibilityFactors :=
  let hlaScore := calculateHLACompatibility d.hla_typing r.hla_typing .heart
  let sizeCompatible := isSizeCompatible d r 0.7 1.3
  let genderCompatible := isGenderCompatible d.gender r.gender .heart
  let score := hlaScore * 25 + (if sizeCompatible then 25 else 0) +
    (if genderCompatible then 5 else 0)
  (score,
   { factors with
       hla_compatibility := hlaScore
       age_compatibility := true
       size_compatibility := sizeCompatible
       gender_compatibility := genderCompatible })

/-- The MELD bonus of calculateLiverMatchFactors, guarded by JavaScript
    truthiness of the optional meld_score. -/
def meldBonus (r : Recipient) : ℚ :=
  match r.meld_score with
  | some m => if m ≠ 0 then min (m / 40 * 20) 20 else 0
  | none => 0

/-- calculateLiverMatchFactors: MELD bonus plus organ-specific score and
    factor updates. -/
def calculateLiverMatchFactors (d : Donor) (r : Recipient)
    (factors : CompatibilityFactors) : ℚ × CompatibilityFactors :=
  let hlaScore := calculateHLACompatibility d.hla_typing r.hla_typing .liver
  let sizeCompatible := isSizeCompatible d r 0.6 1.5
  let genderCompatible := isGenderCompatible d.gender r.gender .liver
  let score := meldBonus r + hlaScore * 10 + (if sizeCompatible then 20 else 0) +
    (if genderCompatible then 5 else 0)
  (score,
   { factors with
       hla_compatibility := hlaScore
       age_compatibility := true
       size_compatibility := sizeCompatible
       gender_compatibility := genderCompatible })

/-- calculateKidneyMatchFactors: organ-specific score and factor updates. -/
def calculateKidneyMatchFactors (d : Donor) (r : Recipient)
    (factors : CompatibilityFactors) : ℚ × CompatibilityFactors :=
  let hlaScore := calculateHLACompatibility d.hla_typing r.hla_typing .kidney
  let sizeCompatible := isSizeCompatible d r 0.5 2.0
  let genderCompatible := isGenderCompatible d.gender r.gender .kidney
  let score := hlaScore * 35 + (if sizeCompatible then 15 else 0) +
    (if genderCompatible then 5 else 0)
  (score,
   { factors with
       hla_compatibility := hlaScore
       age_compatibility := true
       size_compatibility := sizeCompatible
       gender_compatibility := genderCompatible })

/-- The compatibility_factors object as first initialized by
    calculateMatch. -/
def initialFactors (d : Donor) (r : Recipient) : CompatibilityFactors :=
  { blood_compatibility := isBloodCompatible d.blood_type r.blood_type
    hla_compatibility := 0
    age_compatibility := false
    size_compatibility := false
    gender_compatibility := false
    urgency_bonus := min r.urgency_score 10 }

/-- The factors object after the common-factor pass overwrote the urgency
    bonus. -/
def scoringFactors (d : Donor) (r : Recipient) : CompatibilityFactors :=
  { initialFactors d r with urgency_bonus := urgencyBonus r }

/-- The organ-specific dispatch of calculateMatch. -/
def organSpecific (d : Donor) (r : Recipient) :
    OrganType → ℚ × CompatibilityFactors
  | .heart => calculateHeartMatchFactors d r (scoringFactors d r)
  | .liver => calculateLiverMatchFactors d r (scoringFactors d r)
  | .kidney => calculateKidneyMatchFactors d r (scoringFactors d r)

/-- The accumulated matchScore of calculateMatch before rounding:
    blood points, urgency bonus and the organ-specific block. -/
def rawMatchScore (d : Donor) (r : Recipient) (organ : OrganType) : ℚ :=
  (if isBloodCompatible d.blood_type r.blood_type then 30 else 0) +
    urgencyBonus r + (organSpecific d r organ).1

/-- calculateMatch: common factors, organ-specific factors, risk, urgency
    and remaining viability, with the total rounded to two decimals. -/
def calculateMatch (d : Donor) (r : Recipient) (organ : OrganType)
    (now : ℚ) : MatchResult :=
  { recipient := r
    match_score := (round (rawMatchScore d r organ * 100) : ℚ) / 100
    risk_level := (calculateRisk d r organ (rawMatchScore d r organ) now).1
    risk_percentage := (calculateRisk d r organ (rawMatchScore d r organ) now).2
    urgency_level := determineUrgencyLevel r organ
    compatibility_factors := (organSpecific d r organ).2
    viability_window_hours := getRemainingIschemiaHours d organ now
    viability_window := getRemainingIschemiaHours d organ now
    cold_ischemia_time := getRemainingIschemiaHours d organ now }

/- ===== orchestration (findMatches) ===== -/

/-- The urgencyOrder table of the final sort. -/
def urgencyRank : UrgencyLevel → ℕ
  | .critical => 3
  | .urgent => 2
  | .routine => 1

/-- The sort comparator as a boolean total preorder: a may stay before b
    exactly when the comparator is nonpositive on (a, b). -/
def matchLE (a b : MatchResult) : Bool :=
  if a.urgency_level = b.urgency_level then
    decide (b.match_score ≤ a.match_score)
  else
    decide (urgencyRank b.urgency_level < urgencyRank a.urgency_level)

/-- The recipient pre-filter of findMatches: organ match, active status,
    blood compatibility, recipient eligibility, antigen crossmatch and the
    age-difference gate. -/
def recipientPasses (d : Donor) (organ : OrganType) (r : Recipient) : Bool :=
  decide (r.organ_needed = organ) &&
  decide (r.status = .active) &&
  isBloodCompatible d.blood_type r.blood_type &&
  (isRecipientEligible r organ).eligible &&
  !(hasUnacceptableAntigenConflict d.hla_typing r organ) &&
  decide (|d.age - r.age| ≤ ageMaxDiff organ)

/-- The error message raised for an ineligible donor. -/
def donorIneligibleMsg (d : Donor) (organ : OrganType) : String :=
  "Donor is not eligible for " ++ organName organ ++ " donation. Reason: " ++
    ((isDonorEligible d organ).reason.getD "null")

/-- findMatches: the top-level orchestration, returning an error exactly
    when the donor is ineligible for the offered organ. -/
def findMatches (d : Donor) (rs : List Recipient) (now : ℚ) :
    Except String (List MatchResult) :=
  match d.organs_available with
  | [] => .ok []
  | organ :: _ =>
    if d.cold_ischemia_time_hours.isSome ∧ isOrganViableNow d organ now = false then
      .ok []
    else
      let donorEligibility := isDonorEligible d organ
      if donorEligibility.eligible = false then
        .error (donorIneligibleMsg d organ)
      else
        let compatibleRecipients := rs.filter (recipientPasses d organ)
        let kept := compatibleRecipients.filterMap (fun r =>
          let matchResult := calculateMatch d r organ now
          if 30 < matchResult.match_score then some matchResult else none)
        .ok (kept.mergeSort matchLE)

/- ===== spec-side definitions (for refinement statements) ===== -/

/-- Per the spec: the per-locus match ratio is the count of donor antigens
    also present among recipient antigens, divided by min 2 (donor antigen
    count), capped at 1. -/
def locusMatchRatioSpec (donorAlleles recipientAlleles : List String)
    (locus : Locus) : ℚ :=
  let donorAntigens := alleleListToAntigens donorAlleles locus
  let recipientAntigens := alleleListToAntigens recipientAlleles locus
  min 1
    (((donorAntigens.filter (fun a => recipientAntigens.contains a)).length : ℚ) /
      ((min 2 donorAntigens.length : ℕ) : ℚ))

/-- Per the spec: a locus contributes exactly when both sides supply
    antigen data for it. -/
def hlaUsable (donorHLA recipientHLA : HlaTyping) (lw : Locus × ℚ) : Bool :=
  !(alleleListToAntigens (donorHLA.locus lw.1) lw.1).isEmpty &&
  !(alleleListToAntigens (recipientHLA.locus lw.1) lw.1).isEmpty

/-- Per the spec: the HLA score is the weighted average of the ratios of
    the loci with data on both sides, normalized by the sum of the weights
    actually used, and 1 when no locus has usable data. -/
def hlaCompatibilitySpec (donorHLA recipientHLA : HlaTyping)
    (organ : OrganType) : ℚ :=
  let usable := (HLA_LOCUS_WEIGHTS organ).filter (hlaUsable donorHLA recipientHLA)
  if usable.isEmpty then 1
  else
    (usable.map (fun lw =>
      locusMatchRatioSpec (donorHLA.locus lw.1) (recipientHLA.locus lw.1) lw.1 * lw.2)).sum /
    (usable.map (fun lw => lw.2)).sum

/- ===== concrete fixtures used by witnesses ===== -/

/-- An all-empty HLA typing record. -/
def emptyHla : HlaTyping := ⟨[], [], [], [], [], [], none⟩

/-- An 80-year-old kidney donor, otherwise unremarkable. -/
def wDonor80 : Donor :=
  { id := "d-80", age := 80, gender := .male, blood_type := .Apos,
    hla_typing := emptyHla, weight_kg := some 70, medical_history := "",
    organs_available := [.kidney], cause_of_death := "",
    cold_ischemia_time_hours := none, ischemia_start_at := none,
    updated_at := none, created_at := some 0 }

/-- A 30-year-old kidney donor with a clean history. -/
def wDonor30 : Donor := { wDonor80 with id := "d-30", age := 30 }

/-- A donor with an explicit six-hour ischemia window started at epoch 0. -/
def wDonorCit : Donor :=
  { wDonor30 with
      id := "d-cit", cold_ischemia_time_hours := some 6, ischemia_start_at := some 0 }

/-- A donor offering no organs. -/
def wDonorNoOrgans : Donor := { wDonor30 with id := "d-no", organs_available := [] }

/-- A 30-year-old donor whose history mentions substance abuse only. -/
def wDonorSubstance : Donor :=
  { wDonor30 with id := "d-sub", medical_history := "substance abuse" }

/-- A 30-year-old donor whose history mentions malignancy. -/
def wDonorMalignancy : Donor :=
  { wDonor30 with id := "d-mal", medical_history := "malignancy" }

/-- An active, compatible kidney recipient. -/
def wRecipient : Recipient :=
  { id := "r-0", age := 40, gender := .male, blood_type := .Apos,
    hla_typing := emptyHla, weight_kg := some 70, medical_history := "",
    organ_needed := .kidney, urgency_score := 7, meld_score := none,
    unos_status := none, status := .active, unacceptable_antigens := none }

/- ===== general lemmas about the engine ===== -/

/-- round is monotone on the rationals. -/
theorem round_mono_rat {x y : ℚ} (h : x ≤ y) : round x ≤ round y := by
  rw [round_eq, round_eq]
  exact Int.floor_le_floor (by linarith)

/-- The HLA compatibility score is never negative. -/
theorem hla_nonneg (dh rh : HlaTyping) (o : OrganType) :
    0 ≤ calculateHLACompatibility dh rh o := by
  simp only [calculateHLACompatibility]
  split
  · norm_num
  · exact le_min (by norm_num) (le_max_left 0 _)

/-- The HLA compatibility score never exceeds one. -/
theorem hla_le_one (dh rh : HlaTyping) (o : OrganType) :
    calculateHLACompatibility dh rh o ≤ 1 := by
  simp only [calculateHLACompatibility]
  split
  · exact le_refl 1
  · exact min_le_left 1 _

/-- The urgency bonus is at most 15 points. -/
theorem urgencyBonus_le (r : Recipient) : urgencyBonus r ≤ 15 :=
  min_le_right _ _

/-- The MELD bonus is at most 20 points. -/
theorem meldBonus_le (r : Recipient) : meldBonus r ≤ 20 := by
  unfold meldBonus
  cases r.meld_score with
  | none => norm_num
  | some m =>
    show (if m ≠ 0 then min (m / 40 * 20) 20 else 0) ≤ 20
    split_ifs
    · exact min_le_right _ _
    · norm_num

/-- Each organ-specific score block is at most 55 points. -/
theorem organSpecific_fst_le (d : Donor) (r : Recipient) (organ : OrganType) :
    (organSpecific d r organ).1 ≤ 55 := by
  have h1 := hla_le_one d.hla_typing r.hla_typing organ
  cases organ with
  | heart =>
    simp only [organSpecific, calculateHeartMatchFactors]
    split_ifs <;> linarith
  | liver =>
    have h2 := meldBonus_le r
    simp only [organSpecific, calculateLiverMatchFactors]
    split_ifs <;> linarith
  | kidney =>
    simp only [organSpecific, calculateKidneyMatchFactors]
    split_ifs <;> linarith

/-- The raw (unrounded) match score is at most 100 points. -/
theorem rawMatchScore_le (d : Donor) (r : Recipient) (organ : OrganType) :
    rawMatchScore d r organ ≤ 100 := by
  unfold rawMatchScore
  have h1 := urgencyBonus_le r
  have h2 := organSpecific_fst_le d r organ
  split_ifs <;> linarith

/-- The rounded match score is at most 100 points. -/
theorem calculateMatch_score_le (d : Donor) (r : Recipient) (organ : OrganType)
    (now : ℚ) : (calculateMatch d r organ now).match_score ≤ 100 := by
  show (round (rawMatchScore d r organ * 100) : ℚ) / 100 ≤ 100
  have h1 : rawMatchScore d r organ * 100 ≤ 10000 := by
    have := rawMatchScore_le d r organ; linarith
  have h2 : round (rawMatchScore d r organ * 100) ≤ round ((10000 : ℚ)) :=
    round_mono_rat h1
  have h3 : round ((10000 : ℚ)) = 10000 := by
    rw [show ((10000 : ℚ)) = ((10000 : ℤ) : ℚ) by norm_num, round_intCast]
  rw [h3] at h2
  have h4 : ((round (rawMatchScore d r organ * 100) : ℤ) : ℚ) ≤ 10000 := by
    exact_mod_cast h2
  linarith

/-- The elapsed-hours helper never returns a negative value. -/
theorem getElapsedHoursSince_nonneg (t : Option ℚ) (now : ℚ) :
    0 ≤ getElapsedHoursSince t now := by
  unfold getElapsedHoursSince
  cases t
  · norm_num
  · exact le_max_left 0 _

/-- The age-related risk terms are nonnegative. -/
theorem agePenaltyRisk_nonneg (d : Donor) (r : Recipient) :
    0 ≤ agePenaltyRisk d r := by
  unfold agePenaltyRisk
  split_ifs <;> norm_num

/-- The match-score risk term is nonnegative. -/
theorem scorePenaltyRisk_nonneg (ms : ℚ) : 0 ≤ scorePenaltyRisk ms := by
  unfold scorePenaltyRisk
  split_ifs <;> norm_num

/-- The organ-specific urgency risk term is nonnegative. -/
theorem organUrgencyRisk_nonneg (r : Recipient) (organ : OrganType) :
    0 ≤ organUrgencyRisk r organ := by
  cases organ with
  | kidney => exact le_refl 0
  | liver =>
    simp only [organUrgencyRisk]
    cases r.meld_score with
    | none => norm_num
    | some m =>
      show (0 : ℚ) ≤ if 25 < m then 10 else 0
      split_ifs <;> norm_num
  | heart =>
    simp only [organUrgencyRisk]
    split_ifs <;> norm_num

/-- The HLA mismatch risk penalty is nonnegative. -/
theorem hlaRiskPenalty_nonneg (d : Donor) (r : Recipient) (organ : OrganType) :
    0 ≤ hlaRiskPenalty d r organ := by
  have h := hla_le_one d.hla_typing r.hla_typing organ
  unfold hlaRiskPenalty
  cases organ <;> exact mul_nonneg (by linarith) (by norm_num)

/-- The size-mismatch risk penalty is nonnegative. -/
theorem sizeMismatchRiskPenalty_nonneg (d : Donor) (r : Recipient)
    (organ : OrganType) : 0 ≤ sizeMismatchRiskPenalty d r organ := by
  simp only [sizeMismatchRiskPenalty]
  split_ifs <;> norm_num

/-- The cold-ischemia risk penalty is nonnegative. -/
theorem citRiskPenalty_nonneg (d : Donor) (now : ℚ) :
    0 ≤ citRiskPenalty d now := by
  unfold citRiskPenalty
  cases h : d.cold_ischemia_time_hours with
  | none => norm_num
  | some w =>
    have he := getElapsedHoursSince_nonneg (getIschemiaStartAt d) now
    show (0 : ℚ) ≤
      if w < getElapsedHoursSince (getIschemiaStartAt d) now then 20
      else min 8 (getElapsedHoursSince (getIschemiaStartAt d) now / w * 8)
    split_ifs with hcmp
    · norm_num
    · refine le_min (by norm_num) ?_
      have hw : 0 ≤ w := le_trans he (not_lt.mp hcmp)
      exact mul_nonneg (div_nonneg he hw) (by norm_num)

/-- A fold over nonnegative bucket penalties never decreases. -/
theorem comorbidity_foldl_le (text : String) (L : List (List String × ℚ))
    (a : ℚ) (hL : ∀ p ∈ L, 0 ≤ p.2) :
    a ≤ L.foldl (comorbidityStep text) a := by
  induction L generalizing a with
  | nil => exact le_refl a
  | cons hd tl ih =>
    simp only [List.foldl_cons]
    refine le_trans ?_ (ih _ fun p hp => hL p (List.mem_cons_of_mem _ hp))
    unfold comorbidityStep
    split_ifs
    · exact le_add_of_nonneg_right (hL hd (List.mem_cons_self hd tl))
    · exact le_refl a

/-- The comorbidity penalty is nonnegative. -/
theorem getComorbidityPenalty_nonneg (a b : String) :
    0 ≤ getComorbidityPenalty a b := by
  simp only [getComorbidityPenalty]
  refine le_min ?_ (by norm_num)
  refine comorbidity_foldl_le _ _ _ ?_
  intro p hp
  fin_cases hp <;> norm_num

/-- The accumulated risk factor sum is nonnegative. -/
theorem riskSum_nonneg (d : Donor) (r : Recipient) (organ : OrganType)
    (ms now : ℚ) : 0 ≤ riskSum d r organ ms now := by
  unfold riskSum
  have h1 := agePenaltyRisk_nonneg d r
  have h2 := scorePenaltyRisk_nonneg ms
  have h3 := organUrgencyRisk_nonneg r organ
  have h4 := hlaRiskPenalty_nonneg d r organ
  have h5 := sizeMismatchRiskPenalty_nonneg d r organ
  have h6 := citRiskPenalty_nonneg d now
  have h7 := getComorbidityPenalty_nonneg d.medical_history r.medical_history
  linarith

/-- The risk percentage reported by calculateMatch, in closed form. -/
theorem calculateMatch_risk_eq (d : Donor) (r : Recipient) (organ : OrganType)
    (now : ℚ) :
    (calculateMatch d r organ now).risk_percentage =
      min (riskSum d r organ (rawMatchScore d r organ) now) 80 := rfl

/-- The HLA factor reported by calculateMatch is the HLA score itself. -/
theorem calculateMatch_hla_eq (d : Donor) (r : Recipient) (organ : OrganType)
    (now : ℚ) :
    (calculateMatch d r organ now).compatibility_factors.hla_compatibility =
      calculateHLACompatibility d.hla_typing r.hla_typing organ := by
  cases organ <;> rfl

/-- The recipient reported by calculateMatch is the scored recipient. -/
theorem calculateMatch_recipient_eq (d : Donor) (r : Recipient)
    (organ : OrganType) (now : ℚ) :
    (calculateMatch d r organ now).recipient = r := rfl

/-- Membership in a findMatches result list, unfolded: the donor offered
    this organ first, the recipient passed the pre-filter, the result is
    its calculated match and it cleared the 30-point threshold. -/
theorem exists_of_mem_findMatches {d : Donor} {rs : List Recipient} {now : ℚ}
    {res : List MatchResult} {m : MatchResult}
    (h : findMatches d rs now = .ok res) (hm : m ∈ res) :
    ∃ organ rest r, d.organs_available = organ :: rest ∧ r ∈ rs ∧
      recipientPasses d organ r = true ∧ m = calculateMatch d r organ now ∧
      30 < m.match_score := by
  cases ho : d.organs_available with
  | nil =>
    have hfm : findMatches d rs now = .ok [] := by
      unfold findMatches; rw [ho]
    rw [hfm] at h
    injection h with h
    subst h
    exact absurd hm (List.not_mem_nil m)
  | cons organ rest =>
    have hfm : findMatches d rs now =
        if d.cold_ischemia_time_hours.isSome ∧ isOrganViableNow d organ now = false then
          Except.ok []
        else if (isDonorEligible d organ).eligible = false then
          Except.error (donorIneligibleMsg d organ)
        else
          Except.ok
            (((rs.filter (recipientPasses d organ)).filterMap fun r =>
              if 30 < (calculateMatch d r organ now).match_score then
                some (calculateMatch d r organ now)
              else none).mergeSort matchLE) := by
      unfold findMatches; rw [ho]
    rw [hfm] at h
    split at h
    · injection h with h
      subst h
      exact absurd hm (List.not_mem_nil m)
    · split at h
      · cases h
      · injection h with h
        subst h
        rw [List.mem_mergeSort] at hm
        obtain ⟨r, hr, heq⟩ := List.mem_filterMap.mp hm
        rw [List.mem_filter] at hr
        refine ⟨organ, rest, r, rfl, hr.1, hr.2, ?_⟩
        by_cases hc : 30 < (calculateMatch d r organ now).match_score
        · rw [if_pos hc] at heq
          injection heq with heq
          subst heq
          exact ⟨rfl, hc⟩
        · rw [if_neg hc] at heq
          cases heq

/-- listIncludes decides the infix relation. -/
theorem listIncludes_iff (needle hay : List Char) :
    listIncludes needle hay = true ↔ needle <:+: hay := by
  induction hay with
  | nil => simp [listIncludes, List.isEmpty_iff, List.infix_nil]
  | cons c t ih =>
    simp only [listIncludes, Bool.or_eq_true, List.isPrefixOf_iff_prefix, ih,
      List.infix_cons_iff]

/-- Inclusion survives appending on the right. -/
theorem strIncludes_append_right (s t needle : String)
    (h : strIncludes s needle = true) : strIncludes (s ++ t) needle = true := by
  rw [strIncludes, String.data_append, listIncludes_iff]
  exact ((listIncludes_iff needle.data s.data).mp h).trans ⟨[], t.data, by simp⟩

/-- Inclusion survives prepending on the left. -/
theorem strIncludes_append_left (s t needle : String)
    (h : strIncludes t needle = true) : strIncludes (s ++ t) needle = true := by
  rw [strIncludes, String.data_append, listIncludes_iff]
  exact ((listIncludes_iff needle.data t.data).mp h).trans ⟨s.data, [], by simp⟩

/-- findMatches on a donor whose organ list starts with organ, written as
    nested conditionals. -/
theorem findMatches_cons (d : Donor) (rs : List Recipient) (now : ℚ)
    (organ : OrganType) (rest : List OrganType)
    (horg : d.organs_available = organ :: rest) :
    findMatches d rs now =
      if d.cold_ischemia_time_hours.isSome ∧ isOrganViableNow d organ now = false then
        Except.ok []
      else if (isDonorEligible d organ).eligible = false then
        Except.error (donorIneligibleMsg d organ)
      else
        Except.ok
          (((rs.filter (recipientPasses d organ)).filterMap fun r =>
            if 30 < (calculateMatch d r organ now).match_score then
              some (calculateMatch d r organ now)
            else none).mergeSort matchLE) := by
  unfold findMatches
  rw [horg]

/-- The urgencyOrder table is injective. -/
theorem urgencyRank_inj (u v : UrgencyLevel) (h : urgencyRank u = urgencyRank v) :
    u = v := by
  cases u <;> cases v <;> simp_all [urgencyRank]

/-- The sort comparator is transitive. -/
theorem matchLE_trans (a b c : MatchResult) (hab : matchLE a b = true)
    (hbc : matchLE b c = true) : matchLE a c = true := by
  unfold matchLE at hab hbc ⊢
  by_cases h1 : a.urgency_level = b.urgency_level <;>
    by_cases h2 : b.urgency_level = c.urgency_level
  · rw [if_pos h1] at hab
    rw [if_pos h2] at hbc
    rw [if_pos (h1.trans h2)]
    exact decide_eq_true (le_trans (of_decide_eq_true hbc) (of_decide_eq_true hab))
  · rw [if_pos h1] at hab
    rw [if_neg h2] at hbc
    have hac : a.urgency_level ≠ c.urgency_level := fun hx => h2 (h1.symm.trans hx)
    rw [if_neg hac, h1]
    exact hbc
  · rw [if_neg h1] at hab
    rw [if_pos h2] at hbc
    have hac : a.urgency_level ≠ c.urgency_level := fun hx => h1 (hx.trans h2.symm)
    rw [if_neg hac, ← h2]
    exact hab
  · rw [if_neg h1] at hab
    rw [if_neg h2] at hbc
    have hba := of_decide_eq_true hab
    have hcb := of_decide_eq_true hbc
    have hac : a.urgency_level ≠ c.urgency_level := by
      intro hx
      rw [hx] at hba
      exact absurd (lt_trans hcb hba) (lt_irrefl _)
    rw [if_neg hac]
    exact decide_eq_true (lt_trans hcb hba)

/-- The sort comparator is total. -/
theorem matchLE_total (a b : MatchResult) : (matchLE a b || matchLE b a) = true := by
  unfold matchLE
  by_cases h : a.urgency_level = b.urgency_level
  · rw [if_pos h, if_pos h.symm]
    rcases le_total b.match_score a.match_score with hle | hle <;> simp [hle]
  · have hne : urgencyRank a.urgency_level ≠ urgencyRank b.urgency_level :=
      fun hr => h (urgencyRank_inj _ _ hr)
    rw [if_neg h, if_neg (Ne.symm h)]
    rcases lt_or_gt_of_ne hne with hlt | hlt <;> simp [hlt]

/-- The spec-side locus ratio is nonnegative. -/
theorem locusMatchRatioSpec_nonneg (dAll rAll : List String) (l : Locus) :
    0 ≤ locusMatchRatioSpec dAll rAll l := by
  simp only [locusMatchRatioSpec]
  exact le_min (by norm_num) (div_nonneg (Nat.cast_nonneg _) (Nat.cast_nonneg _))

/-- The spec-side locus ratio is capped at one. -/
theorem locusMatchRatioSpec_le_one (dAll rAll : List String) (l : Locus) :
    locusMatchRatioSpec dAll rAll l ≤ 1 := by
  simp only [locusMatchRatioSpec]
  exact min_le_left _ _

/-- With data on both sides the code ratio equals the spec ratio. -/
theorem computeLocusMatchRatio_eq_of_ne (dAll rAll : List String) (l : Locus)
    (hd : (alleleListToAntigens dAll l).length ≠ 0)
    (hr : (alleleListToAntigens rAll l).length ≠ 0) :
    computeLocusMatchRatio dAll rAll l = locusMatchRatioSpec dAll rAll l := by
  simp only [computeLocusMatchRatio, locusMatchRatioSpec]
  rw [if_neg (by tauto)]
  have h1 : 1 ≤ min 2 (alleleListToAntigens dAll l).length :=
    le_min (by norm_num) (Nat.one_le_iff_ne_zero.mpr hd)
  rw [max_eq_right h1]

/-- Without data on one side the code ratio is the marker value. -/
theorem computeLocusMatchRatio_neg (dAll rAll : List String) (l : Locus)
    (h : (alleleListToAntigens dAll l).length = 0 ∨
      (alleleListToAntigens rAll l).length = 0) :
    computeLocusMatchRatio dAll rAll l = -1 := by
  simp only [computeLocusMatchRatio]
  rw [if_pos h]

/-- The code ratio is nonnegative exactly when both sides have data. -/
theorem ratio_nonneg_iff (dAll rAll : List String) (l : Locus) :
    (0 ≤ computeLocusMatchRatio dAll rAll l) ↔
      ((alleleListToAntigens dAll l).length ≠ 0 ∧
       (alleleListToAntigens rAll l).length ≠ 0) := by
  constructor
  · intro h
    by_contra hn
    rw [not_and_or, not_ne_iff, not_ne_iff] at hn
    rw [computeLocusMatchRatio_neg dAll rAll l hn] at h
    norm_num at h
  · rintro ⟨hd, hr⟩
    rw [computeLocusMatchRatio_eq_of_ne dAll rAll l hd hr]
    exact locusMatchRatioSpec_nonneg dAll rAll l

/-- The usability predicate of the spec, in terms of list lengths. -/
theorem hlaUsable_eq_true_iff (dh rh : HlaTyping) (lw : Locus × ℚ) :
    hlaUsable dh rh lw = true ↔
      ((alleleListToAntigens (dh.locus lw.1) lw.1).length ≠ 0 ∧
       (alleleListToAntigens (rh.locus lw.1) lw.1).length ≠ 0) := by
  simp [hlaUsable, List.isEmpty_iff_length_eq_zero]

/-- The aggregation fold of calculateHLACompatibility computes the two
    sums of the specification over the usable loci. -/
theorem hlaFold_eq (dh rh : HlaTyping) (L : List (Locus × ℚ)) (s u : ℚ) :
    L.foldl (hlaFoldStep dh rh) (s, u) =
      (s + ((L.filter (hlaUsable dh rh)).map (fun lw =>
          locusMatchRatioSpec (dh.locus lw.1) (rh.locus lw.1) lw.1 * lw.2)).sum,
       u + ((L.filter (hlaUsable dh rh)).map (fun lw => lw.2)).sum) := by
  induction L generalizing s u with
  | nil => simp
  | cons lw L ih =>
    simp only [List.foldl_cons, List.filter_cons]
    by_cases hu : hlaUsable dh rh lw = true
    · rw [if_pos hu]
      have hlen := (hlaUsable_eq_true_iff dh rh lw).mp hu
      have hstep : hlaFoldStep dh rh (s, u) lw =
          (s + locusMatchRatioSpec (dh.locus lw.1) (rh.locus lw.1) lw.1 * lw.2,
           u + lw.2) := by
        unfold hlaFoldStep
        rw [if_pos ((ratio_nonneg_iff _ _ _).mpr hlen)]
        rw [computeLocusMatchRatio_eq_of_ne _ _ _ hlen.1 hlen.2]
      rw [hstep, ih]
      simp only [List.map_cons, List.sum_cons, Prod.mk.injEq]
      constructor <;> ring
    · rw [if_neg hu]
      have hstep : hlaFoldStep dh rh (s, u) lw = (s, u) := by
        unfold hlaFoldStep
        rw [if_neg fun hge =>
          hu ((hlaUsable_eq_true_iff dh rh lw).mpr ((ratio_nonneg_iff _ _ _).mp hge))]
      rw [hstep, ih]

/-- The first fold component: the weighted ratio sum over usable loci. -/
theorem hlaFold_fst (dh rh : HlaTyping) (L : List (Locus × ℚ)) (s u : ℚ) :
    (L.foldl (hlaFoldStep dh rh) (s, u)).1 =
      s + ((L.filter (hlaUsable dh rh)).map (fun lw =>
        locusMatchRatioSpec (dh.locus lw.1) (rh.locus lw.1) lw.1 * lw.2)).sum := by
  rw [hlaFold_eq]

/-- The second fold component: the weight sum over usable loci. -/
theorem hlaFold_snd (dh rh : HlaTyping) (L : List (Locus × ℚ)) (s u : ℚ) :
    (L.foldl (hlaFoldStep dh rh) (s, u)).2 =
      u + ((L.filter (hlaUsable dh rh)).map (fun lw => lw.2)).sum := by
  rw [hlaFold_eq]

/-- The HLA score of the code equals the weighted average of the spec. -/
theorem calcHLA_eq_spec (dh rh : HlaTyping) (organ : OrganType) :
    calculateHLACompatibility dh rh organ = hlaCompatibilitySpec dh rh organ := by
  have hwpos : ∀ lw ∈ (HLA_LOCUS_WEIGHTS organ).filter (hlaUsable dh rh),
      (0 : ℚ) < lw.2 := by
    intro lw hlw
    have hmem := List.mem_of_mem_filter hlw
    cases organ <;> fin_cases hmem <;> norm_num
  simp only [calculateHLACompatibility, hlaCompatibilitySpec]
  rw [hlaFold_fst, hlaFold_snd]
  simp only [zero_add]
  by_cases hFe : (HLA_LOCUS_WEIGHTS organ).filter (hlaUsable dh rh) = []
  · rw [hFe]
    simp
  · have hsum_pos :
        0 < (((HLA_LOCUS_WEIGHTS organ).filter (hlaUsable dh rh)).map
          (fun lw => lw.2)).sum := by
      apply List.sum_pos
      · intro x hx
        obtain ⟨lw, hlw, hxe⟩ := List.mem_map.mp hx
        rw [← hxe]
        exact hwpos lw hlw
      · simp [hFe]
    rw [if_neg (ne_of_gt hsum_pos)]
    rw [if_neg (by simp [List.isEmpty_iff, hFe])]
    have hr_nonneg :
        0 ≤ (((HLA_LOCUS_WEIGHTS organ).filter (hlaUsable dh rh)).map (fun lw =>
          locusMatchRatioSpec (dh.locus lw.1) (rh.locus lw.1) lw.1 * lw.2)).sum := by
      apply List.sum_nonneg
      intro x hx
      obtain ⟨lw, hlw, hxe⟩ := List.mem_map.mp hx
      rw [← hxe]
      exact mul_nonneg (locusMatchRatioSpec_nonneg _ _ _) (le_of_lt (hwpos lw hlw))
    have hr_le :
        (((HLA_LOCUS_WEIGHTS organ).filter (hlaUsable dh rh)).map (fun lw =>
          locusMatchRatioSpec (dh.locus lw.1) (rh.locus lw.1) lw.1 * lw.2)).sum ≤
        (((HLA_LOCUS_WEIGHTS organ).filter (hlaUsable dh rh)).map
          (fun lw => lw.2)).sum := by
      apply List.sum_le_sum
      intro lw hlw
      calc locusMatchRatioSpec (dh.locus lw.1) (rh.locus lw.1) lw.1 * lw.2
          ≤ 1 * lw.2 := by
            exact mul_le_mul_of_nonneg_right (locusMatchRatioSpec_le_one _ _ _)
              (le_of_lt (hwpos lw hlw))
        _ = lw.2 := one_mul _
    rw [max_eq_right (div_nonneg hr_nonneg (le_of_lt hsum_pos))]
    rw [min_eq_right ((div_le_one hsum_pos).mpr hr_le)]

/- ===== claim theorems ===== -/

/-- C1: every MatchResult returned by findMatches has a match_score
    strictly above 30 and at most 100, a risk_percentage in [0, 80] and an
    hla_compatibility factor in [0, 1]; candidates scoring at or below 30
    are discarded and never returned. -/
theorem C1_result_invariants (d : Donor) (rs : List Recipient) (now : ℚ)
    (res : List MatchResult) (m : MatchResult)
    (h : findMatches d rs now = .ok res) (hm : m ∈ res) :
    30 < m.match_score ∧ m.match_score ≤ 100 ∧
    0 ≤ m.risk_percentage ∧ m.risk_percentage ≤ 80 ∧
    0 ≤ m.compatibility_factors.hla_compatibility ∧
    m.compatibility_factors.hla_compatibility ≤ 1 := by
  obtain ⟨organ, rest, r, -, -, -, hme, hgt⟩ := exists_of_mem_findMatches h hm
  subst hme
  refine ⟨hgt, calculateMatch_score_le d r organ now, ?_, ?_, ?_, ?_⟩
  · rw [calculateMatch_risk_eq]
    exact le_min (riskSum_nonneg d r organ (rawMatchScore d r organ) now)
      (by norm_num)
  · rw [calculateMatch_risk_eq]
    exact min_le_right _ _
  · rw [calculateMatch_hla_eq]
    exact hla_nonneg d.hla_typing r.hla_typing organ
  · rw [calculateMatch_hla_eq]
    exact hla_le_one d.hla_typing r.hla_typing organ

/-- Witness for C1 at a concrete donor, pool and clock. -/
theorem C1_witness :
    30 < (calculateMatch wDonor30 wRecipient .kidney 0).match_score ∧
    (calculateMatch wDonor30 wRecipient .kidney 0).match_score ≤ 100 ∧
    0 ≤ (calculateMatch wDonor30 wRecipient .kidney 0).risk_percentage ∧
    (calculateMatch wDonor30 wRecipient .kidney 0).risk_percentage ≤ 80 ∧
    0 ≤ (calculateMatch wDonor30 wRecipient .kidney 0).compatibility_factors.hla_compatibility ∧
    (calculateMatch wDonor30 wRecipient .kidney 0).compatibility_factors.hla_compatibility ≤ 1 :=
  C1_result_invariants wDonor30 [wRecipient] 0
    [calculateMatch wDonor30 wRecipient .kidney 0]
    (calculateMatch wDonor30 wRecipient .kidney 0)
    (by with_unfolding_all rfl) (List.mem_cons_self _ _)

/-- C3: an empty organs_available list yields the empty result, and an
    explicit, fully elapsed ischemia window yields the empty result, both
    without raising the donor-ineligibility error and before eligibility
    is ever consulted. -/
theorem C3_no_match_outcomes (d : Donor) (rs : List Recipient) (now : ℚ) :
    (d.organs_available = [] → findMatches d rs now = .ok []) ∧
    (∀ organ rest, d.organs_available = organ :: rest →
      d.cold_ischemia_time_hours.isSome = true →
      isOrganViableNow d organ now = false →
      findMatches d rs now = .ok []) := by
  constructor
  · intro h
    unfold findMatches
    rw [h]
  · intro organ rest h hcit hviab
    unfold findMatches
    rw [h]
    exact if_pos ⟨hcit, hviab⟩

/-- Witness for C3: a donor without organs and a donor whose six-hour
    window elapsed seven hours ago. -/
theorem C3_witness :
    findMatches wDonorNoOrgans [wRecipient] 0 = .ok [] ∧
    findMatches wDonorCit [wRecipient] (7 * 3600000) = .ok [] :=
  ⟨(C3_no_match_outcomes wDonorNoOrgans [wRecipient] 0).1 rfl,
   (C3_no_match_outcomes wDonorCit [wRecipient] (7 * 3600000)).2 .kidney [] rfl rfl
     (by with_unfolding_all decide)⟩

/-- C5: without an explicit window the remaining hours are the static
    per-organ default (kidney 24, heart 6, liver 12); with an explicit
    window they are max 0 (limit minus elapsed hours), rounded to one
    decimal; and the organ is viable now exactly when the remaining hours
    are strictly positive. -/
theorem C5_viability_tracker (d : Donor) (organ : OrganType) (now : ℚ) :
    (ORGAN_VIABILITY_HOURS .kidney = 24 ∧ ORGAN_VIABILITY_HOURS .heart = 6 ∧
      ORGAN_VIABILITY_HOURS .liver = 12) ∧
    (d.cold_ischemia_time_hours = none →
      getRemainingIschemiaHours d organ now = ORGAN_VIABILITY_HOURS organ) ∧
    (∀ limit, d.cold_ischemia_time_hours = some limit →
      getRemainingIschemiaHours d organ now =
        (round ((max 0 (limit - getElapsedHoursSince (getIschemiaStartAt d) now)) * 10) : ℚ) / 10) ∧
    (isOrganViableNow d organ now = true ↔
      0 < getRemainingIschemiaHours d organ now) := by
  refine ⟨⟨rfl, rfl, rfl⟩, ?_, ?_, ?_⟩
  · intro h
    simp [getRemainingIschemiaHours, getIschemiaLimitHours, h]
  · intro limit h
    simp [getRemainingIschemiaHours, getIschemiaLimitHours, h]
  · simp [isOrganViableNow]

/-- Witness for C5 at a concrete donor without an explicit window. -/
theorem C5_witness :
    getRemainingIschemiaHours wDonor30 .kidney 0 = ORGAN_VIABILITY_HOURS .kidney :=
  (C5_viability_tracker wDonor30 .kidney 0).2.1 rfl

/-- C9: the compatibility scorer is deterministic: two invocations on
    identical donor, recipient, organ and clock reading return identical
    MatchResults (scores, risk, urgency and factor breakdown alike). -/
theorem C9_scorer_deterministic (d d' : Donor) (r r' : Recipient)
    (o o' : OrganType) (now now' : ℚ)
    (hd : d = d') (hr : r = r') (ho : o = o') (hn : now = now') :
    calculateMatch d r o now = calculateMatch d' r' o' now' := by
  subst hd; subst hr; subst ho; subst hn; rfl

/-- Witness for C9 at a concrete scoring call. -/
theorem C9_witness :
    calculateMatch wDonor30 wRecipient .kidney 0 =
      calculateMatch wDonor30 wRecipient .kidney 0 :=
  C9_scorer_deterministic wDonor30 wDonor30 wRecipient wRecipient
    .kidney .kidney 0 0 rfl rfl rfl rfl

/-- C10: a missing weight or a weight of exactly 0 on either side makes
    the size check report compatible and the risk calculator skip the
    size-mismatch penalty, so the weight-ratio division is never reached;
    a zero weight behaves exactly like a missing one. -/
theorem C10_zero_weight_guard (d : Donor) (r : Recipient) (organ : OrganType)
    (minRatio maxRatio : ℚ) :
    ((d.weight_kg = none ∨ d.weight_kg = some 0 ∨ r.weight_kg = none ∨
        r.weight_kg = some 0) →
      isSizeCompatible d r minRatio maxRatio = true ∧
      sizeMismatchRiskPenalty d r organ = 0) ∧
    isSizeCompatible { d with weight_kg := some 0 } r minRatio maxRatio =
      isSizeCompatible { d with weight_kg := none } r minRatio maxRatio ∧
    sizeMismatchRiskPenalty d { r with weight_kg := some 0 } organ =
      sizeMismatchRiskPenalty d { r with weight_kg := none } organ := by
  refine ⟨?_, ?_, ?_⟩
  · intro h
    have hfalse : (weightTruthy d.weight_kg && weightTruthy r.weight_kg) = false := by
      rcases h with h | h | h | h <;> simp [weightTruthy, h]
    constructor
    · simp [isSizeCompatible, hfalse]
    · simp [sizeMismatchRiskPenalty, hfalse]
  · simp [isSizeCompatible, weightTruthy]
  · simp [sizeMismatchRiskPenalty, weightTruthy]

/-- Witness for C10: a weightless donor against the standard recipient. -/
theorem C10_witness :
    isSizeCompatible { wDonor30 with weight_kg := none } wRecipient (1/2) 2 = true ∧
    sizeMismatchRiskPenalty { wDonor30 with weight_kg := none } wRecipient .kidney = 0 :=
  (C10_zero_weight_guard { wDonor30 with weight_kg := none } wRecipient .kidney
    (1/2) 2).1 (Or.inl rfl)

/-- Donor ineligibility decomposed: the age gate fails or an exclusion
    keyword occurs in the combined lowercase history text. -/
theorem isDonorEligible_false_iff (d : Donor) (organ : OrganType) :
    (isDonorEligible d organ).eligible = false ↔
      (donorAgeFails d organ = true ∨
       ∃ kw ∈ donorGeneralExclusions ++ donorOrganExclusions organ,
         strIncludes (strToLower (d.medical_history ++ " " ++ d.cause_of_death))
           kw = true) := by
  simp only [isDonorEligible]
  by_cases hage : donorAgeFails d organ = true
  · rw [if_pos hage]
    simp [hage]
  · rw [if_neg hage]
    cases hfind : (donorGeneralExclusions ++ donorOrganExclusions organ).find?
        (fun keyword =>
          strIncludes (strToLower (d.medical_history ++ " " ++ d.cause_of_death))
            keyword) with
    | some kw =>
      simp only [hfind]
      constructor
      · intro _
        exact Or.inr ⟨kw, List.mem_of_find?_eq_some hfind, List.find?_some hfind⟩
      · intro _
        trivial
    | none =>
      simp only [hfind]
      constructor
      · intro h
        exact absurd h (by simp)
      · rintro (h | ⟨kw, hmem, hinc⟩)
        · exact absurd h hage
        · have := List.find?_eq_none.mp hfind kw hmem
          simp [hinc] at this

/-- C2: for a donor with organs on offer whose explicit ischemia window
    (if any) has not elapsed, findMatches fails exactly when the donor is
    ineligible for the offered organ, the failure carries the formatted
    human-readable reason, and a donor aged 80 offering a kidney is
    ineligible with a reason citing the acceptable age range. -/
theorem C2_donor_ineligibility (d : Donor) (rs : List Recipient) (now : ℚ)
    (organ : OrganType) (rest : List OrganType)
    (horg : d.organs_available = organ :: rest)
    (hviab : ¬ (d.cold_ischemia_time_hours.isSome = true ∧
      isOrganViableNow d organ now = false)) :
    ((∃ e, findMatches d rs now = .error e) ↔
      (donorAgeFails d organ = true ∨
       ∃ kw ∈ donorGeneralExclusions ++ donorOrganExclusions organ,
         strIncludes (strToLower (d.medical_history ++ " " ++ d.cause_of_death))
           kw = true)) ∧
    (∀ e, findMatches d rs now = .error e → e = donorIneligibleMsg d organ) ∧
    (d.age = 80 → organ = .kidney →
      (isDonorEligible d organ).eligible = false ∧
      ∀ reason, (isDonorEligible d organ).reason = some reason →
        strIncludes reason "outside the acceptable range" = true) := by
  have hfm := findMatches_cons d rs now organ rest horg
  rw [if_neg hviab] at hfm
  refine ⟨Iff.trans ?_ (isDonorEligible_false_iff d organ), ?_, ?_⟩
  · constructor
    · rintro ⟨e, he⟩
      by_contra hne
      rw [if_neg hne] at hfm
      rw [hfm] at he
      cases he
    · intro helig
      rw [if_pos helig] at hfm
      exact ⟨_, hfm⟩
  · intro e he
    by_cases helig : (isDonorEligible d organ).eligible = false
    · rw [if_pos helig] at hfm
      rw [hfm] at he
      injection he with he
      exact he.symm
    · rw [if_neg helig] at hfm
      rw [hfm] at he
      cases he
  · intro hage horgan
    subst horgan
    have hfail : donorAgeFails d .kidney = true := by
      unfold donorAgeFails
      rw [hage]
      norm_num [donorAgeMin, donorAgeMax]
    have h1 : isDonorEligible d .kidney =
        ⟨false, some ("Donor age (" ++ toString d.age ++
          ") is outside the acceptable range for " ++ organName .kidney ++
          " donation.")⟩ := by
      unfold isDonorEligible
      rw [if_pos hfail]
    rw [h1]
    refine ⟨rfl, ?_⟩
    intro reason hr
    injection hr with hr
    subst hr
    refine strIncludes_append_right _ _ _ ?_
    refine strIncludes_append_right _ _ _ ?_
    refine strIncludes_append_left _ _ _ ?_
    decide

/-- Witness for C2: the 80-year-old kidney donor. -/
theorem C2_witness :
    ((∃ e, findMatches wDonor80 [wRecipient] 0 = .error e) ↔
      (donorAgeFails wDonor80 .kidney = true ∨
       ∃ kw ∈ donorGeneralExclusions ++ donorOrganExclusions .kidney,
         strIncludes (strToLower (wDonor80.medical_history ++ " " ++
           wDonor80.cause_of_death)) kw = true)) ∧
    (∀ e, findMatches wDonor80 [wRecipient] 0 = .error e →
      e = donorIneligibleMsg wDonor80 .kidney) ∧
    (wDonor80.age = 80 → OrganType.kidney = .kidney →
      (isDonorEligible wDonor80 .kidney).eligible = false ∧
      ∀ reason, (isDonorEligible wDonor80 .kidney).reason = some reason →
        strIncludes reason "outside the acceptable range" = true) :=
  C2_donor_ineligibility wDonor80 [wRecipient] 0 .kidney [] rfl
    (by with_unfolding_all decide)

/-- C4: findMatches results are ordered by urgency tier first (critical
    before urgent before routine) and, within a tier, by non-increasing
    match score. -/
theorem C4_result_ordering (d : Donor) (rs : List Recipient) (now : ℚ)
    (res : List MatchResult) (h : findMatches d rs now = .ok res) :
    res.Pairwise (fun a b =>
      urgencyRank b.urgency_level ≤ urgencyRank a.urgency_level ∧
      (a.urgency_level = b.urgency_level → b.match_score ≤ a.match_score)) := by
  have himp : ∀ {a b : MatchResult}, matchLE a b = true →
      urgencyRank b.urgency_level ≤ urgencyRank a.urgency_level ∧
      (a.urgency_level = b.urgency_level → b.match_score ≤ a.match_score) := by
    intro a b hle
    unfold matchLE at hle
    by_cases h1 : a.urgency_level = b.urgency_level
    · rw [if_pos h1] at hle
      exact ⟨by rw [h1], fun _ => of_decide_eq_true hle⟩
    · rw [if_neg h1] at hle
      exact ⟨le_of_lt (of_decide_eq_true hle), fun hc => absurd hc h1⟩
  cases ho : d.organs_available with
  | nil =>
    have hfm : findMatches d rs now = .ok [] := by
      unfold findMatches; rw [ho]
    rw [hfm] at h
    injection h with h
    subst h
    exact List.Pairwise.nil
  | cons organ rest =>
    have hfm := findMatches_cons d rs now organ rest ho
    rw [hfm] at h
    split at h
    · injection h with h
      subst h
      exact List.Pairwise.nil
    · split at h
      · cases h
      · injection h with h
        subst h
        exact (List.sorted_mergeSort matchLE_trans matchLE_total _).imp himp

/-- Witness for C4 at a concrete call. -/
theorem C4_witness :
    ((findMatches wDonor30 [wRecipient] 0).toOption.getD []).Pairwise (fun a b =>
      urgencyRank b.urgency_level ≤ urgencyRank a.urgency_level ∧
      (a.urgency_level = b.urgency_level → b.match_score ≤ a.match_score)) :=
  C4_result_ordering wDonor30 [wRecipient] 0 _ (by with_unfolding_all rfl)

/-- C6: the HLA score is the weighted average, over the loci with data on
    both sides, of the per-locus ratios (shared donor antigens over
    min 2 (donor antigen count), capped at 1), normalized by the weights
    actually used, with the fixed organ weights (kidney DR 0.5 B 0.3
    A 0.2, heart DR 0.4 B 0.35 A 0.25, liver DR 1.0), and defaults to 1
    when no locus is usable. -/
theorem C6_hla_weighted_average (dh rh : HlaTyping) (organ : OrganType) :
    calculateHLACompatibility dh rh organ = hlaCompatibilitySpec dh rh organ ∧
    HLA_LOCUS_WEIGHTS .kidney = [(.DR, 0.5), (.B, 0.3), (.A, 0.2)] ∧
    HLA_LOCUS_WEIGHTS .heart = [(.DR, 0.4), (.B, 0.35), (.A, 0.25)] ∧
    HLA_LOCUS_WEIGHTS .liver = [(.DR, 1.0)] :=
  ⟨calcHLA_eq_spec dh rh organ, rfl, rfl, rfl⟩

/-- C7 counterexample: the claimed general exclusion list does not govern
    the code; a donor whose history contains only the phrase substance
    abuse passes eligibility, though the claim says every history hitting
    the claimed list (active infection, malignancy, psychiatric illness,
    substance abuse) is rejected. -/
theorem C7_counterexample :
    ¬ (∀ (d : Donor) (organ : OrganType),
        donorAgeFails d organ = false →
        (∃ kw ∈ ["active infection", "malignancy", "psychiatric illness",
          "substance abuse"],
          strIncludes (strToLower (d.medical_history ++ " " ++ d.cause_of_death))
            kw = true) →
        (isDonorEligible d organ).eligible = false) := by
  intro hclaim
  have h := hclaim wDonorSubstance .kidney (by with_unfolding_all decide)
    ⟨"substance abuse", by decide, by with_unfolding_all decide⟩
  have ht : (isDonorEligible wDonorSubstance .kidney).eligible = true := by
    with_unfolding_all decide
  exact absurd (ht.symm.trans h) (by decide)

/-- C7 amended: the general exclusion list is infection, malignancy,
    psychiatric illness, alcohol abuse and drug abuse; a donor passing the
    age gate whose combined lowercase history text contains one of them is
    rejected, with a reason naming a matched keyword of the combined
    general-plus-organ exclusion list. -/
theorem C7_amended_exclusions (d : Donor) (organ : OrganType)
    (hage : donorAgeFails d organ = false)
    (hkw : ∃ kw ∈ donorGeneralExclusions,
      strIncludes (strToLower (d.medical_history ++ " " ++ d.cause_of_death))
        kw = true) :
    donorGeneralExclusions =
      ["infection", "malignancy", "psychiatric illness", "alcohol abuse",
       "drug abuse"] ∧
    (isDonorEligible d organ).eligible = false ∧
    ∃ kw, kw ∈ donorGeneralExclusions ++ donorOrganExclusions organ ∧
      strIncludes (strToLower (d.medical_history ++ " " ++ d.cause_of_death))
        kw = true ∧
      (isDonorEligible d organ).reason =
        some ("Medical history/cause of death includes exclusion criteria: \"" ++
          kw ++ "\".") := by
  have hex : ∃ kw ∈ donorGeneralExclusions ++ donorOrganExclusions organ,
      strIncludes (strToLower (d.medical_history ++ " " ++ d.cause_of_death))
        kw = true := by
    obtain ⟨kw, hmem, hinc⟩ := hkw
    exact ⟨kw, List.mem_append_left _ hmem, hinc⟩
  have hsome : ((donorGeneralExclusions ++ donorOrganExclusions organ).find?
      (fun keyword =>
        strIncludes (strToLower (d.medical_history ++ " " ++ d.cause_of_death))
          keyword)).isSome = true := by
    rw [List.find?_isSome]
    exact hex
  obtain ⟨kw, hkweq⟩ := Option.isSome_iff_exists.mp hsome
  have hmem := List.mem_of_find?_eq_some hkweq
  have hp := List.find?_some hkweq
  have hbody : isDonorEligible d organ =
      (match (donorGeneralExclusions ++ donorOrganExclusions organ).find?
          (fun keyword =>
            strIncludes (strToLower (d.medical_history ++ " " ++ d.cause_of_death))
              keyword) with
       | some keyword =>
         ⟨false, some ("Medical history/cause of death includes exclusion criteria: \"" ++
           keyword ++ "\".")⟩
       | none => ⟨true, none⟩) := by
    simp only [isDonorEligible]
    rw [if_neg (by simp [hage])]
  rw [hbody, hkweq]
  exact ⟨rfl, rfl, kw, hmem, hp, rfl⟩

/-- Witness for C7 amended: a donor whose history mentions malignancy. -/
theorem C7_witness :
    donorGeneralExclusions =
      ["infection", "malignancy", "psychiatric illness", "alcohol abuse",
       "drug abuse"] ∧
    (isDonorEligible wDonorMalignancy .kidney).eligible = false ∧
    ∃ kw, kw ∈ donorGeneralExclusions ++ donorOrganExclusions .kidney ∧
      strIncludes (strToLower (wDonorMalignancy.medical_history ++ " " ++
        wDonorMalignancy.cause_of_death)) kw = true ∧
      (isDonorEligible wDonorMalignancy .kidney).reason =
        some ("Medical history/cause of death includes exclusion criteria: \"" ++
          kw ++ "\".") :=
  C7_amended_exclusions wDonorMalignancy .kidney (by with_unfolding_all decide)
    ⟨"malignancy", by decide, by with_unfolding_all decide⟩

/-- C8: an O-negative donor is blood-compatible with every recipient
    type, an AB-positive recipient is compatible with every donor type, an
    A-positive donor is not compatible with an O-positive recipient, and
    findMatches never returns a blood-incompatible recipient. -/
theorem C8_blood_rules (d : Donor) (rs : List Recipient) (now : ℚ)
    (res : List MatchResult) (m : MatchResult) :
    (∀ rt : BloodType, isBloodCompatible .Oneg rt = true) ∧
    (∀ dt : BloodType, isBloodCompatible dt .ABpos = true) ∧
    isBloodCompatible .Apos .Opos = false ∧
    (findMatches d rs now = .ok res → m ∈ res →
      isBloodCompatible d.blood_type m.recipient.blood_type = true) := by
  refine ⟨fun rt => by cases rt <;> rfl, fun dt => by cases dt <;> rfl, rfl, ?_⟩
  intro h hm
  obtain ⟨organ, rest, r, -, -, hpass, hme, -⟩ := exists_of_mem_findMatches h hm
  subst hme
  rw [calculateMatch_recipient_eq]
  simp only [recipientPasses, Bool.and_eq_true] at hpass
  exact hpass.1.1.1.2

/-- Witness for C8 at a concrete call whose result pool is nonempty. -/
theorem C8_witness :
    isBloodCompatible wDonor30.blood_type
      (calculateMatch wDonor30 wRecipient .kidney 0).recipient.blood_type = true :=
  (C8_blood_rules wDonor30 [wRecipient] 0
    [calculateMatch wDonor30 wRecipient .kidney 0]
    (calculateMatch wDonor30 wRecipient .kidney 0)).2.2.2
    (by with_unfolding_all rfl) (List.mem_cons_self _ _)

end OrganMatching
